import Mathlib

/-!
# Verification of the poll-based serial transport

Shallow embedding of
`custom_components/foxess_modbus/client/protocol_pollserial.py` — the custom
pyserial `Serial` subclass whose `read` and `write` use `select.poll` with
an abort pipe per direction.

Modelling choices, in one place:

* Bytes are `Nat`, byte strings are `List Nat`.
* The OS is an oracle: each loop iteration consumes one environment step
  carrying the outcome of the syscalls made in that iteration — the event
  list returned by `poll.poll` (pairs of file descriptor and revents mask),
  the bytes delivered by `os.read` on the device (for `read`) or the outcome
  of `os.write` (for `write`), and the boolean value of `timeout.expired()`
  at the point the code consults it.  Wall-clock time itself (the
  `poll_timeout` computation from `Timeout.time_left`) has no effect on the
  control flow beyond what the oracle reports, so it is not modelled.
* The OS contracts `os.read(fd, n)` returns at most `n` bytes and
  `os.write(fd, d)` accepts at most `len(d)` bytes are reflected with
  `List.take` / `min`.
* The read-abort (resp. write-abort) pipe content is modelled as a `Nat`
  counting pending bytes, threaded through the call; the drain
  `os.read(pipe_abort_read_r, 1000)` removes up to 1000 bytes, i.e. the
  count becomes `pending - 1000` in truncated subtraction.
* When the environment list runs out while the loop would continue, the
  model returns a distinguished `fuel` outcome; theorems quantify over runs
  that complete.
* Exceptions become result constructors.  In pyserial,
  `SerialException` is declared as a subclass of `IOError`, which in
  Python 3 is the same class as `OSError`, and `SerialTimeoutException` is a
  subclass of `SerialException`.  Consequently, inside `write`'s
  `try: ... except OSError as e:` block, the
  `raise SerialTimeoutException("Write timeout")` on the zero-ready branch
  and the `raise SerialException("device reports error (poll)")` on the
  poll-error branch are both caught by the `except OSError` clause; their
  `errno` attribute is `None`, which is not in the transient-errno tuple, so
  the handler re-raises `SerialException("write failed: <original message>")`.
  The model encodes this unconditionally-taken path directly: those two
  raises inside the `try` produce `WriteError.writeFailed` with the wrapped
  message, while the deadline check after the `try`/`except` (the only raise
  outside the `try`) produces the genuine `WriteError.writeTimeout`.
-/

namespace PollSerial

/-- Linux values of the poll(2) revents bits used by the source. -/
def POLLIN : Nat := 1

def POLLOUT : Nat := 4

def POLLERR : Nat := 8

def POLLHUP : Nat := 16

def POLLNVAL : Nat := 32

/-- The error mask `select.POLLERR | select.POLLHUP | select.POLLNVAL`
tested against each revents word in both loops. -/
def errMask : Nat := POLLERR ||| POLLHUP ||| POLLNVAL

/-- `_PollResult` from the source. -/
inductive PollResult
  | TIMEOUT
  | ABORT
  | READY
deriving DecidableEq

/-- The fields of the `Serial` object that the `read`/`write` bodies
consult: `is_open`, the device descriptor `fd`, the read ends of the two
abort pipes, the truthiness of `self._inter_byte_timeout`, and
`Timeout(self._write_timeout).is_non_blocking` (i.e. whether the configured
write timeout equals zero).  The read timeout value itself only determines
how long `poll.poll` blocks, which the environment oracle reports, so it
carries no field here. -/
structure Serial where
  is_open : Bool
  fd : Nat
  pipe_abort_read_r : Nat
  pipe_abort_write_r : Nat
  inter_byte_timeout : Bool
  write_timeout_non_blocking : Bool
deriving DecidableEq

/-- The `for fd, event in events:` body shared by both loops, started with
`result = _PollResult.TIMEOUT`.  An entry whose descriptor is the abort pipe
drains up to 1000 bytes from the pipe, sets `ABORT` and breaks; otherwise an
entry whose revents intersects `errMask` raises
`SerialException("device reports error (poll)")` (the `.error` case);
otherwise an entry on the device descriptor sets `READY` and scanning
continues. -/
def processEvents (abortFd devFd pipe : Nat) (result : PollResult) :
    List (Nat × Nat) → Except Unit (PollResult × Nat)
  | [] => .ok (result, pipe)
  | (fd, event) :: rest =>
    if fd = abortFd then
      .ok (.ABORT, pipe - 1000)
    else if event &&& errMask ≠ 0 then
      .error ()
    else if fd = devFd then
      processEvents abortFd devFd pipe .READY rest
    else
      processEvents abortFd devFd pipe result rest

/-- One oracle step for a `read` iteration: the poll events, the bytes
`os.read(self.fd, _)` would deliver (truncated by the requested count), and
the value `timeout.expired()` would return this iteration. -/
structure ReadEnvStep where
  events : List (Nat × Nat)
  devData : List Nat
  expired : Bool
deriving DecidableEq

/-- Why the read loop stopped: the requested count was accumulated (`while`
condition became false), the poll timed out, the abort pipe fired, or the
inter-byte-timeout early stop. -/
inductive ReadStop
  | filled
  | timedOut
  | aborted
  | interByte
deriving DecidableEq

/-- Exceptions `read` can raise: `PortNotOpenError()` at entry and
`SerialException("device reports error (poll)")` from the event scan. -/
inductive ReadError
  | portNotOpen
  | deviceError
deriving DecidableEq

/-- A completed `read`: the returned bytes, the stop reason, the abort-pipe
content at return, and ghost counters of `poll.poll` calls and
`os.read(self.fd, _)` calls performed. -/
structure ReadSuccess where
  data : List Nat
  stop : ReadStop
  pipeAfter : Nat
  polls : Nat
  devReads : Nat
deriving DecidableEq

/-- Outcome of `read`: normal return, raised exception (with the abort-pipe
content at the raise), or oracle exhaustion. -/
inductive ReadResult
  | ok (s : ReadSuccess)
  | err (e : ReadError) (pipeAfter : Nat)
  | fuel (pipeAfter : Nat)
deriving DecidableEq

/-- The `while len(read) < size:` loop of `Serial.read`.  Each iteration
polls, scans the events, and on `READY` appends
`os.read(self.fd, size - len(read))` (modelled as `take` of the oracle's
delivered bytes), breaking early when an inter-byte timeout is configured
and the read returned no bytes; on `TIMEOUT`/`ABORT` (or an expired
deadline) it breaks, returning the accumulated bytes. -/
def readLoop (p : Serial) (size : Nat) (acc : List Nat) (pipe polls devReads : Nat) :
    List ReadEnvStep → ReadResult
  | [] =>
    if size ≤ acc.length then
      .ok ⟨acc, .filled, pipe, polls, devReads⟩
    else
      .fuel pipe
  | step :: rest =>
    if size ≤ acc.length then
      .ok ⟨acc, .filled, pipe, polls, devReads⟩
    else
      match processEvents p.pipe_abort_read_r p.fd pipe .TIMEOUT step.events with
      | .error _ => .err .deviceError pipe
      | .ok (result, pipe') =>
        if result = .READY then
          let buf := step.devData.take (size - acc.length)
          if p.inter_byte_timeout ∧ buf = [] then
            .ok ⟨acc ++ buf, .interByte, pipe', polls + 1, devReads + 1⟩
          else
            readLoop p size (acc ++ buf) pipe' (polls + 1) (devReads + 1) rest
        else if result = .TIMEOUT ∨ result = .ABORT ∨ step.expired then
          .ok ⟨acc, if result = .ABORT then .aborted else .timedOut, pipe', polls + 1, devReads⟩
        else
          readLoop p size acc pipe' (polls + 1) devReads rest

/-- `Serial.read(size)`: raise `PortNotOpenError` if the port is closed,
otherwise run the accumulation loop starting from an empty buffer.
`pipe` is the content of the read-abort pipe at entry. -/
def Serial.read (p : Serial) (size : Nat) (pipe : Nat) (env : List ReadEnvStep) : ReadResult :=
  if ¬ p.is_open then
    .err .portNotOpen pipe
  else
    readLoop p size [] pipe 0 0 env

/-- Outcome of one `n = os.write(self.fd, d)` call: `n` bytes accepted, or
an `OSError` with the given errno and message. -/
inductive OsWrite
  | ok (n : Nat)
  | err (en : Nat) (msg : String)
deriving DecidableEq

/-- One oracle step for a `write` iteration: the `os.write` outcome, the
poll events (consulted only when the iteration reaches the poll), and the
value `timeout.expired()` would return at the post-iteration check. -/
structure WriteEnvStep where
  osWrite : OsWrite
  events : List (Nat × Nat)
  expired : Bool
deriving DecidableEq

/-- Linux errno values of the transient tuple
`(errno.EAGAIN, errno.EALREADY, errno.EWOULDBLOCK, errno.EINPROGRESS, errno.EINTR)`;
`EWOULDBLOCK` equals `EAGAIN` (11) on Linux. -/
def transientErrnos : List Nat := [11, 114, 11, 115, 4]

/-- Why the write loop stopped without raising: all bytes written
(`tx_remaining` reached 0), the non-blocking early `return n`, or the abort
pipe fired. -/
inductive WriteStop
  | done
  | nonBlocking
  | aborted
deriving DecidableEq

/-- Exceptions `write` can raise, distinguished by Python class:
`portNotOpen` is `PortNotOpenError()`; `writeFailed msg` is
`SerialException(msg)` raised by the `except OSError` handler (this includes
the wrapped forms of the in-`try` timeout and device-error raises, see the
module docstring); `writeTimeout` is `SerialTimeoutException("Write timeout")`
raised by the deadline check outside the `try`. -/
inductive WriteError
  | portNotOpen
  | writeFailed (msg : String)
  | writeTimeout
deriving DecidableEq

/-- A completed `write`: the returned count, the stop reason, the
write-abort-pipe content at return, and ghost counters of `os.write`
attempts, `poll.poll` calls, and total bytes the device accepted. -/
structure WriteSuccess where
  ret : Nat
  stop : WriteStop
  pipeAfter : Nat
  attempts : Nat
  polls : Nat
  written : Nat
deriving DecidableEq

/-- Outcome of `write`. -/
inductive WriteResult
  | ok (s : WriteSuccess)
  | err (e : WriteError) (pipeAfter : Nat)
  | fuel (pipeAfter : Nat)
deriving DecidableEq

/-- The mutable locals of the write loop (`d`, `tx_remaining`, the
write-abort pipe content) plus the ghost counters. -/
structure WState where
  d : List Nat
  tx_remaining : Nat
  pipe : Nat
  attempts : Nat
  polls : Nat
  written : Nat
deriving DecidableEq

/-- The `while tx_remaining > 0:` loop of `Serial.write`.  Each iteration
attempts `os.write`; a transient `OSError` (errno in `transientErrnos`) is
zero progress, any other `OSError` raises
`SerialException("write failed: <msg>")`.  After a successful partial write
the loop returns `n` in non-blocking mode, breaks when done, and otherwise
polls: a device-error event raises (wrapped, see module docstring)
`"write failed: device reports error (poll)"`; zero ready channels raises
(wrapped) `"write failed: Write timeout"`; an abort drains the pipe and
breaks.  The deadline check after the `try` raises the genuine
`SerialTimeoutException` when the mode is blocking and the deadline has
expired.  On normal exit the return value is `total_len - len(d)`. -/
def writeLoop (p : Serial) (total_len : Nat) (st : WState) :
    List WriteEnvStep → WriteResult
  | [] =>
    if st.tx_remaining = 0 then
      .ok ⟨total_len - st.d.length, .done, st.pipe, st.attempts, st.polls, st.written⟩
    else
      .fuel st.pipe
  | step :: rest =>
    if st.tx_remaining = 0 then
      .ok ⟨total_len - st.d.length, .done, st.pipe, st.attempts, st.polls, st.written⟩
    else
      match step.osWrite with
      | .err en msg =>
        if en ∈ transientErrnos then
          if ¬ p.write_timeout_non_blocking ∧ step.expired then
            .err .writeTimeout st.pipe
          else
            writeLoop p total_len
              ⟨st.d, st.tx_remaining, st.pipe, st.attempts + 1, st.polls, st.written⟩ rest
        else
          .err (.writeFailed ("write failed: " ++ msg)) st.pipe
      | .ok rawN =>
        let n := min rawN st.d.length
        let d' := st.d.drop n
        let tx' := st.tx_remaining - n
        if p.write_timeout_non_blocking then
          .ok ⟨n, .nonBlocking, st.pipe, st.attempts + 1, st.polls, st.written + n⟩
        else if tx' = 0 then
          .ok ⟨total_len - d'.length, .done, st.pipe, st.attempts + 1, st.polls, st.written + n⟩
        else
          match processEvents p.pipe_abort_write_r p.fd st.pipe .TIMEOUT step.events with
          | .error _ => .err (.writeFailed "write failed: device reports error (poll)") st.pipe
          | .ok (result, pipe') =>
            if result = .TIMEOUT then
              .err (.writeFailed "write failed: Write timeout") pipe'
            else if result = .ABORT then
              .ok ⟨total_len - d'.length, .aborted, pipe', st.attempts + 1, st.polls + 1,
                st.written + n⟩
            else
              if ¬ p.write_timeout_non_blocking ∧ step.expired then
                .err .writeTimeout pipe'
              else
                writeLoop p total_len
                  ⟨d', tx', pipe', st.attempts + 1, st.polls + 1, st.written + n⟩ rest

/-- `Serial.write(data)`: raise `PortNotOpenError` if the port is closed,
otherwise run the drain loop on `d = to_bytes(data)` with
`tx_remaining = total_len = len(d)`.  `pipe` is the content of the
write-abort pipe at entry. -/
def Serial.write (p : Serial) (data : List Nat) (pipe : Nat) (env : List WriteEnvStep) :
    WriteResult :=
  if ¬ p.is_open then
    .err .portNotOpen pipe
  else
    writeLoop p data.length ⟨data, data.length, pipe, 0, 0, 0⟩ env

/-- An open port with blocking write timeout, used to instantiate theorems:
device descriptor 3, read-abort pipe 4, write-abort pipe 5, no inter-byte
timeout. -/
def portA : Serial := ⟨true, 3, 4, 5, false, false⟩

/-- An open port configured with a non-blocking (zero) write timeout. -/
def portNB : Serial := ⟨true, 3, 4, 5, false, true⟩

/-- A closed port. -/
def portClosed : Serial := ⟨false, 3, 4, 5, true, true⟩

/-- An open port configured with an inter-byte timeout (and blocking write
timeout). -/
def portIB : Serial := ⟨true, 3, 4, 5, true, false⟩

/-- The poll reported the abort pipe as fired and the event scan reaches
that entry: the list has an abort-pipe entry, and no earlier entry carries
an error bit (an earlier error entry would raise first; the scan breaks at
the abort entry). -/
def abortFires (abortFd : Nat) : List (Nat × Nat) → Bool
  | [] => false
  | (fd, event) :: rest =>
    if fd = abortFd then true
    else if event &&& errMask ≠ 0 then false
    else abortFires abortFd rest

/-- The poll reported a device error condition and the event scan reaches
it: some entry on a non-abort descriptor has a bit of `errMask` set, and no
earlier entry is on the abort pipe (the scan breaks at an abort entry). -/
def pollError (abortFd : Nat) : List (Nat × Nat) → Bool
  | [] => false
  | (fd, event) :: rest =>
    if fd = abortFd then false
    else if event &&& errMask ≠ 0 then true
    else pollError abortFd rest

/-- Auxiliary invariant of the read loop: starting from a buffer not longer
than `size`, a completed run returns at most `size` bytes, and returns
exactly `size` bytes precisely when the loop stopped because the `while`
condition became false (`ReadStop.filled`). -/
theorem readLoop_length_spec (p : Serial) (size : Nat) :
    ∀ (env : List ReadEnvStep) (acc : List Nat) (pipe polls devReads : Nat) (s : ReadSuccess),
      acc.length ≤ size →
      readLoop p size acc pipe polls devReads env = .ok s →
      s.data.length ≤ size ∧ (s.data.length = size ↔ s.stop = .filled) := by
  intro env
  induction env with
  | nil =>
    intro acc pipe polls devReads s hle h
    simp only [readLoop] at h
    split at h
    · rename_i hsz
      obtain rfl : (⟨acc, .filled, pipe, polls, devReads⟩ : ReadSuccess) = s := by
        injection h
      exact ⟨hle, by simp; omega⟩
    · cases h
  | cons step rest ih =>
    intro acc pipe polls devReads s hle h
    simp only [readLoop] at h
    split at h
    · rename_i hsz
      obtain rfl : (⟨acc, .filled, pipe, polls, devReads⟩ : ReadSuccess) = s := by
        injection h
      exact ⟨hle, by simp; omega⟩
    · rename_i hsz
      split at h
      · cases h
      · rename_i result pipe' hpe
        split at h
        · split at h
          · rename_i hready hib
            obtain rfl :
                (⟨acc ++ step.devData.take (size - acc.length), .interByte, pipe',
                  polls + 1, devReads + 1⟩ : ReadSuccess) = s := by
              injection h
            have hbuf : step.devData.take (size - acc.length) = [] := hib.2
            simp only [hbuf, List.append_nil]
            refine ⟨hle, ?_⟩
            constructor
            · intro hx; omega
            · intro hx; cases hx
          · exact ih _ _ _ _ _ (by
              have := List.length_take (size - acc.length) step.devData
              simp only [List.length_append]
              omega) h
        · split at h
          · rename_i hready hstop
            obtain rfl :
                (⟨acc, if result = .ABORT then .aborted else .timedOut, pipe',
                  polls + 1, devReads⟩ : ReadSuccess) = s := by
              injection h
            refine ⟨hle, ?_⟩
            dsimp only
            constructor
            · intro hx; omega
            · intro hx
              split at hx <;> cases hx
          · exact ih _ _ _ _ _ hle h

/-- C1: for every `size ≥ 0`, a completed `read(size)` on an open port
returns a byte sequence of length at most `size`, and the length equals
`size` exactly when the loop terminated because enough bytes had arrived
(stop reason `filled`) rather than by timeout, abort, or the inter-byte
early stop — all of which are successful partial returns, not errors. -/
theorem read_length_le_size (p : Serial) (size pipe : Nat) (env : List ReadEnvStep)
    (s : ReadSuccess) (h : Serial.read p size pipe env = .ok s) :
    s.data.length ≤ size ∧ (s.data.length = size ↔ s.stop = .filled) := by
  unfold Serial.read at h
  split at h
  · cases h
  · exact readLoop_length_spec p size env [] pipe 0 0 s (by simp) h

/-- Witness for C1: a device that delivers two bytes fills a `read(2)`
exactly (length 2 with stop reason `filled`). -/
theorem read_length_le_size_witness :
    (⟨[65, 66], .filled, 0, 1, 1⟩ : ReadSuccess).data.length ≤ 2 ∧
      ((⟨[65, 66], .filled, 0, 1, 1⟩ : ReadSuccess).data.length = 2 ↔
        (⟨[65, 66], .filled, 0, 1, 1⟩ : ReadSuccess).stop = .filled) :=
  read_length_le_size portA 2 0 [⟨[(3, 1)], [65, 66], false⟩] ⟨[65, 66], .filled, 0, 1, 1⟩
    (by decide)

/-- C6: on a port that is not open, both `read` and `write` raise
`PortNotOpenError` synchronously at entry, for every argument value and
every environment, leaving the abort-pipe contents untouched (the returned
pipe state equals the entry state, and the outcome does not depend on the
device oracle at all). -/
theorem not_open_raises (p : Serial) (size : Nat) (data : List Nat) (pipeR pipeW : Nat)
    (envR : List ReadEnvStep) (envW : List WriteEnvStep) (h : p.is_open = false) :
    Serial.read p size pipeR envR = .err .portNotOpen pipeR ∧
      Serial.write p data pipeW envW = .err .portNotOpen pipeW := by
  constructor
  · simp [Serial.read, h]
  · simp [Serial.write, h]

/-- Witness for C6 on the closed port. -/
theorem not_open_raises_witness :
    Serial.read portClosed 5 2 [] = .err .portNotOpen 2 ∧
      Serial.write portClosed [1, 2] 3 [] = .err .portNotOpen 3 :=
  not_open_raises portClosed 5 [1, 2] 2 3 [] [] rfl

/-- C10: on an open port, `read(0)` returns the empty byte string
immediately — the `while len(read) < 0` condition fails at once — with no
poll wait and no device read performed (both ghost counters are zero) and
the abort pipe untouched, whatever the environment would have offered and
whatever the configured timeouts are. -/
theorem read_zero_returns_empty (p : Serial) (pipe : Nat) (env : List ReadEnvStep)
    (h : p.is_open = true) :
    Serial.read p 0 pipe env = .ok ⟨[], .filled, pipe, 0, 0⟩ := by
  cases env <;> simp [Serial.read, readLoop, h]

/-- Witness for C10: data is available and an abort is pending, yet
`read(0)` still returns empty at once without consulting either. -/
theorem read_zero_returns_empty_witness :
    Serial.read portA 0 7 [⟨[(4, 1)], [9], true⟩] = .ok ⟨[], .filled, 7, 0, 0⟩ :=
  read_zero_returns_empty portA 7 [⟨[(4, 1)], [9], true⟩] rfl

/-- When the abort entry is reached, the event scan drains up to 1000 bytes
from the abort pipe and reports `ABORT`, whatever had been scanned before. -/
theorem processEvents_abort (abortFd devFd : Nat) :
    ∀ (evs : List (Nat × Nat)) (pipe : Nat) (r : PollResult),
      abortFires abortFd evs = true →
      processEvents abortFd devFd pipe r evs = .ok (.ABORT, pipe - 1000) := by
  intro evs
  induction evs with
  | nil => intro pipe r h; cases h
  | cons e rest ih =>
    obtain ⟨fd, event⟩ := e
    intro pipe r h
    by_cases h1 : fd = abortFd
    · simp [processEvents, h1]
    · by_cases h2 : event &&& errMask ≠ 0
      · simp only [abortFires, if_neg h1, if_pos h2] at h
        cases h
      · have h' : abortFires abortFd rest = true := by
          simpa [abortFires, h1, h2] using h
        simp only [processEvents, if_neg h1, if_neg h2]
        split
        · exact ih pipe .READY h'
        · exact ih pipe r h'

/-- When an error entry is reached, the event scan raises
`SerialException("device reports error (poll)")`, whatever had been scanned
before. -/
theorem processEvents_error (abortFd devFd : Nat) :
    ∀ (evs : List (Nat × Nat)) (pipe : Nat) (r : PollResult),
      pollError abortFd evs = true →
      processEvents abortFd devFd pipe r evs = .error () := by
  intro evs
  induction evs with
  | nil => intro pipe r h; cases h
  | cons e rest ih =>
    obtain ⟨fd, event⟩ := e
    intro pipe r h
    by_cases h1 : fd = abortFd
    · simp only [pollError, if_pos h1] at h
      cases h
    · by_cases h2 : event &&& errMask ≠ 0
      · simp [processEvents, h1, h2]
      · have h' : pollError abortFd rest = true := by
          simpa [pollError, h1, h2] using h
        simp only [processEvents, if_neg h1, if_neg h2]
        split
        · exact ih pipe .READY h'
        · exact ih pipe r h'

/-- C2: when the abort pipe fires mid-operation, the pending abort signal
is drained from the pipe (the pipe content drops to zero — the drain reads
up to 1000 bytes, which covers any number of queued one-byte cancel
signals up to 1000) and the operation completes normally: `read` returns
`ok` with exactly the bytes accumulated so far, `write` returns `ok` with
exactly the count written so far (under the loop invariant
`written + len d = total_len`), and neither surfaces an error; with the
pipe left empty, a stale abort signal from this call cannot wake a later
call's poll. -/
theorem abort_clean_completion :
    (∀ (p : Serial) (size : Nat) (acc : List Nat) (pipe polls devReads : Nat)
        (step : ReadEnvStep) (rest : List ReadEnvStep),
        acc.length < size →
        abortFires p.pipe_abort_read_r step.events = true →
        pipe ≤ 1000 →
        readLoop p size acc pipe polls devReads (step :: rest) =
          .ok ⟨acc, .aborted, 0, polls + 1, devReads⟩) ∧
    (∀ (p : Serial) (total_len : Nat) (st : WState) (rawN : Nat)
        (step : WriteEnvStep) (rest : List WriteEnvStep),
        p.write_timeout_non_blocking = false →
        st.tx_remaining ≠ 0 →
        step.osWrite = .ok rawN →
        st.tx_remaining - min rawN st.d.length ≠ 0 →
        abortFires p.pipe_abort_write_r step.events = true →
        st.pipe ≤ 1000 →
        st.written + st.d.length = total_len →
        writeLoop p total_len st (step :: rest) =
          .ok ⟨st.written + min rawN st.d.length, .aborted, 0, st.attempts + 1, st.polls + 1,
            st.written + min rawN st.d.length⟩) := by
  constructor
  · intro p size acc pipe polls devReads step rest hlt hfire hpipe
    have h0 : pipe - 1000 = 0 := by omega
    simp only [readLoop]
    rw [if_neg (by omega),
      processEvents_abort p.pipe_abort_read_r p.fd step.events pipe .TIMEOUT hfire]
    simp [h0]
  · intro p total_len st rawN step rest hnb htx hos htx' hfire hpipe hsum
    have h0 : st.pipe - 1000 = 0 := by omega
    have hret :
        total_len - (st.d.drop (min rawN st.d.length)).length =
          st.written + min rawN st.d.length := by
      have := List.length_drop (min rawN st.d.length) st.d
      omega
    simp only [writeLoop, hos]
    rw [if_neg htx]
    simp only [hnb, if_false, Bool.false_eq_true]
    rw [if_neg htx',
      processEvents_abort p.pipe_abort_write_r p.fd step.events st.pipe .TIMEOUT hfire]
    have hmin := Nat.min_le_right rawN st.d.length
    simp [h0]
    omega

/-- Witness for C2: an abort with one pending signal byte ends a partial
read with the single byte accumulated so far, and ends a partial write
(2 of 3 bytes written) with count 2; both pipes end empty. -/
theorem abort_clean_completion_witness :
    readLoop portA 2 [7] 1 0 0 [⟨[(4, 1)], [], false⟩] = .ok ⟨[7], .aborted, 0, 1, 0⟩ ∧
      writeLoop portA 3 ⟨[9], 1, 1, 1, 0, 2⟩ [⟨.ok 0, [(5, 1)], false⟩] =
        .ok ⟨2, .aborted, 0, 2, 1, 2⟩ := by
  constructor
  · exact abort_clean_completion.1 portA 2 [7] 1 0 0 ⟨[(4, 1)], [], false⟩ []
      (by decide) (by decide) (by decide)
  · have := abort_clean_completion.2 portA 3 ⟨[9], 1, 1, 1, 0, 2⟩ 0
      ⟨.ok 0, [(5, 1)], false⟩ [] rfl (by decide) rfl (by decide) (by decide) (by decide)
      (by decide)
    simpa using this

/-- C3: if the poll reports a device error condition (hang-up, invalid
descriptor, or error bit) and the scan reaches it, the call raises
immediately — independent of the remaining environment, so no retry — and
returns no partial result: `read` discards its accumulated bytes and raises
`SerialException("device reports error (poll)")`; `write` discards its
progress and raises a `SerialException` for the same poll error condition
(its message wrapped to "write failed: device reports error (poll)" by the
`except OSError` clause, since pyserial's `SerialException` subclasses
`OSError`; the Python class raised is the same on both paths). -/
theorem device_error_immediate :
    (∀ (p : Serial) (size : Nat) (acc : List Nat) (pipe polls devReads : Nat)
        (step : ReadEnvStep) (rest : List ReadEnvStep),
        acc.length < size →
        pollError p.pipe_abort_read_r step.events = true →
        readLoop p size acc pipe polls devReads (step :: rest) = .err .deviceError pipe) ∧
    (∀ (p : Serial) (total_len : Nat) (st : WState) (rawN : Nat)
        (step : WriteEnvStep) (rest : List WriteEnvStep),
        p.write_timeout_non_blocking = false →
        st.tx_remaining ≠ 0 →
        step.osWrite = .ok rawN →
        st.tx_remaining - min rawN st.d.length ≠ 0 →
        pollError p.pipe_abort_write_r step.events = true →
        writeLoop p total_len st (step :: rest) =
          .err (.writeFailed "write failed: device reports error (poll)") st.pipe) := by
  constructor
  · intro p size acc pipe polls devReads step rest hlt herr
    simp only [readLoop]
    rw [if_neg (by omega),
      processEvents_error p.pipe_abort_read_r p.fd step.events pipe .TIMEOUT herr]
  · intro p total_len st rawN step rest hnb htx hos htx' herr
    simp only [writeLoop, hos]
    rw [if_neg htx]
    simp only [hnb, if_false, Bool.false_eq_true]
    rw [if_neg htx',
      processEvents_error p.pipe_abort_write_r p.fd step.events st.pipe .TIMEOUT herr]

/-- Witness for C3: a `POLLHUP | POLLERR` event (mask 24) on the device
descriptor aborts a read that had one byte accumulated, discarding it, and
a write that had written one byte, discarding the count. -/
theorem device_error_immediate_witness :
    readLoop portA 2 [7] 6 0 0 [⟨[(3, 24)], [], false⟩] = .err .deviceError 6 ∧
      writeLoop portA 2 ⟨[8, 9], 2, 0, 0, 0, 0⟩ [⟨.ok 1, [(3, 8)], false⟩] =
        .err (.writeFailed "write failed: device reports error (poll)") 0 := by
  constructor
  · exact device_error_immediate.1 portA 2 [7] 6 0 0 ⟨[(3, 24)], [], false⟩ []
      (by decide) (by decide)
  · exact device_error_immediate.2 portA 2 ⟨[8, 9], 2, 0, 0, 0, 0⟩ 1
      ⟨.ok 1, [(3, 8)], false⟩ [] rfl (by decide) rfl (by decide) (by decide)

/-- C8: with an inter-byte timeout configured, a poll iteration that
reports the device ready but whose `os.read` delivers zero bytes ends the
read loop at once — the result is the bytes accumulated so far with stop
reason `interByte`, independent of the rest of the environment (no further
wait toward the overall deadline). -/
theorem read_inter_byte_stop (p : Serial) (size : Nat) (acc : List Nat)
    (pipe pipe' polls devReads : Nat) (step : ReadEnvStep) (rest : List ReadEnvStep)
    (hlt : acc.length < size) (hib : p.inter_byte_timeout = true)
    (hdata : step.devData = [])
    (hpe : processEvents p.pipe_abort_read_r p.fd pipe .TIMEOUT step.events =
      .ok (.READY, pipe')) :
    readLoop p size acc pipe polls devReads (step :: rest) =
      .ok ⟨acc, .interByte, pipe', polls + 1, devReads + 1⟩ := by
  simp only [readLoop]
  rw [if_neg (by omega), hpe]
  simp [hib, hdata]

/-- Witness for C8: one byte accumulated, the device signals readable but
delivers nothing; the read returns that byte immediately even though more
environment steps were available. -/
theorem read_inter_byte_stop_witness :
    readLoop portIB 4 [7] 0 0 0 [⟨[(3, 1)], [], false⟩, ⟨[(3, 1)], [8], false⟩] =
      .ok ⟨[7], .interByte, 0, 1, 1⟩ :=
  read_inter_byte_stop portIB 4 [7] 0 0 0 0 ⟨[(3, 1)], [], false⟩ [⟨[(3, 1)], [8], false⟩]
    (by decide) rfl rfl rfl

/-- C4, evaluated at the failing input.  In blocking mode, when the
readiness wait returns with zero channels ready the source executes
`raise SerialTimeoutException("Write timeout")`, but that statement sits
inside the `try` whose `except OSError` clause catches it (pyserial's
`SerialException` subclasses `IOError`, which is `OSError` in Python 3, and
its `errno` is `None`, not in the transient tuple), so the caller actually
receives `SerialException("write failed: Write timeout")` — a generic
write-failed exception, not a `SerialTimeoutException`.  By contrast the
deadline check after the `try`/`except` does raise the genuine
`SerialTimeoutException`, as the second conjunct shows on an input whose
poll reports the device writable but whose deadline has expired. -/
theorem write_zero_ready_wrapped_timeout :
    Serial.write portA [65, 66] 0 [⟨.ok 1, [], false⟩] =
      .err (.writeFailed "write failed: Write timeout") 0 ∧
      Serial.write portA [65, 66] 0 [⟨.ok 1, [(3, 4)], true⟩] = .err .writeTimeout 0 := by
  constructor
  · decide
  · decide

/-- C5, counterexample to the claim as stated: with a non-blocking write
timeout, a first `os.write` failing with `EAGAIN` (errno 11, transient) is
retried — the `if timeout.is_non_blocking: return n` line is only reached
after a successful `os.write`, and the deadline check is skipped in
non-blocking mode — so this completed call performed two OS-level write
attempts (`attempts = 2`), refuting "at most one OS-level write attempt". -/
theorem write_nonblocking_retries_counterexample :
    Serial.write portNB [7] 0 [⟨.err 11 "eagain", [], false⟩, ⟨.ok 1, [], false⟩] =
      .ok ⟨1, .nonBlocking, 0, 2, 0, 1⟩ ∧
      ¬ (⟨1, .nonBlocking, 0, 2, 0, 1⟩ : WriteSuccess).attempts ≤ 1 := by
  constructor
  · decide
  · decide

/-- In non-blocking mode a completed write loop performed no readiness
wait, left the abort pipe untouched, and either returned early from the
`if timeout.is_non_blocking: return n` line with the count of its one
successful attempt, or had nothing left to send on entry. -/
theorem writeLoop_nonblocking (p : Serial) (total_len : Nat)
    (hnb : p.write_timeout_non_blocking = true) :
    ∀ (env : List WriteEnvStep) (st : WState) (s : WriteSuccess),
      writeLoop p total_len st env = .ok s →
      s.polls = st.polls ∧ s.pipeAfter = st.pipe ∧
        ((s.stop = .nonBlocking ∧ s.written = st.written + s.ret) ∨
          (s.stop = .done ∧ st.tx_remaining = 0 ∧ s.written = st.written ∧
            s.ret = total_len - st.d.length)) := by
  intro env
  induction env with
  | nil =>
    intro st s h
    simp only [writeLoop] at h
    split at h
    · rename_i h0
      obtain rfl : (⟨total_len - st.d.length, .done, st.pipe, st.attempts, st.polls,
          st.written⟩ : WriteSuccess) = s := by injection h
      exact ⟨rfl, rfl, Or.inr ⟨rfl, h0, rfl, rfl⟩⟩
    · cases h
  | cons step rest ih =>
    intro st s h
    simp only [writeLoop] at h
    split at h
    · rename_i h0
      obtain rfl : (⟨total_len - st.d.length, .done, st.pipe, st.attempts, st.polls,
          st.written⟩ : WriteSuccess) = s := by injection h
      exact ⟨rfl, rfl, Or.inr ⟨rfl, h0, rfl, rfl⟩⟩
    · rename_i h0
      split at h
      · rename_i en msg hos
        split at h
        · split at h
          · cases h
          · exact ih ⟨st.d, st.tx_remaining, st.pipe, st.attempts + 1, st.polls,
              st.written⟩ s h
        · cases h
      · rename_i rawN hos
        obtain rfl : (⟨min rawN st.d.length, .nonBlocking, st.pipe, st.attempts + 1,
            st.polls, st.written + min rawN st.d.length⟩ : WriteSuccess) = s := by
          injection h
        exact ⟨rfl, rfl, Or.inl ⟨rfl, rfl⟩⟩

/-- C5, as amended: when the write timeout is configured as non-blocking,
a completed `write` performs no readiness wait and does not touch the abort
pipe; unless the data was empty it returns from the first OS-level write
attempt that does not fail transiently (stop reason `nonBlocking`), with
exactly the byte count that attempt accepted — possibly fewer than
`len(data)` — never raising an error for the shortfall.  (Transiently
failing attempts are retried, which is what the counterexample forces the
original "at most one OS-level attempt" down to.) -/
theorem write_nonblocking_single_attempt (p : Serial) (data : List Nat) (pipe : Nat)
    (env : List WriteEnvStep) (s : WriteSuccess)
    (hnb : p.write_timeout_non_blocking = true)
    (h : Serial.write p data pipe env = .ok s) :
    s.polls = 0 ∧ s.pipeAfter = pipe ∧ s.ret = s.written ∧
      (s.stop = .nonBlocking ∨ data = []) := by
  unfold Serial.write at h
  split at h
  · cases h
  · have hh := writeLoop_nonblocking p data.length hnb env ⟨data, data.length, pipe, 0, 0, 0⟩ s h
    dsimp only at hh
    rcases hh with ⟨hp, hpipe, ⟨hstop, hw⟩ | ⟨hstop, htx, hw, hret⟩⟩
    · exact ⟨hp, hpipe, by omega, Or.inl hstop⟩
    · exact ⟨hp, hpipe, by omega, Or.inr (List.length_eq_zero.mp htx)⟩

/-- Witness for the amended C5: a single successful non-blocking attempt
accepting 1 byte. -/
theorem write_nonblocking_single_attempt_witness :
    (⟨1, .nonBlocking, 0, 1, 0, 1⟩ : WriteSuccess).polls = 0 ∧
      (⟨1, .nonBlocking, 0, 1, 0, 1⟩ : WriteSuccess).pipeAfter = 0 ∧
      (⟨1, .nonBlocking, 0, 1, 0, 1⟩ : WriteSuccess).ret =
        (⟨1, .nonBlocking, 0, 1, 0, 1⟩ : WriteSuccess).written ∧
      ((⟨1, .nonBlocking, 0, 1, 0, 1⟩ : WriteSuccess).stop = .nonBlocking ∨
        [7] = ([] : List Nat)) :=
  write_nonblocking_single_attempt portNB [7] 0 [⟨.ok 1, [], false⟩]
    ⟨1, .nonBlocking, 0, 1, 0, 1⟩ rfl (by decide)

/-- C7: a transient `OSError` from the raw `os.write` syscall (errno in
`(EAGAIN, EALREADY, EWOULDBLOCK, EINPROGRESS, EINTR)`) is treated as zero
progress — the buffer, the remaining count, and the pipe are unchanged —
and, the deadline not having expired at that iteration's end, the loop
re-enters; any other errno is fatal and raises immediately, independent of
the remaining environment, a `SerialException` whose message wraps the
underlying OS error description as "write failed: <description>". -/
theorem write_oserror_handling :
    (∀ (p : Serial) (total_len : Nat) (st : WState) (en : Nat) (msg : String)
        (events : List (Nat × Nat)) (rest : List WriteEnvStep),
        st.tx_remaining ≠ 0 →
        en ∈ transientErrnos →
        writeLoop p total_len st (⟨.err en msg, events, false⟩ :: rest) =
          writeLoop p total_len
            ⟨st.d, st.tx_remaining, st.pipe, st.attempts + 1, st.polls, st.written⟩ rest) ∧
    (∀ (p : Serial) (total_len : Nat) (st : WState) (en : Nat) (msg : String)
        (events : List (Nat × Nat)) (expired : Bool) (rest : List WriteEnvStep),
        st.tx_remaining ≠ 0 →
        en ∉ transientErrnos →
        writeLoop p total_len st (⟨.err en msg, events, expired⟩ :: rest) =
          .err (.writeFailed ("write failed: " ++ msg)) st.pipe) := by
  constructor
  · intro p total_len st en msg events rest htx htr
    simp only [writeLoop]
    rw [if_neg htx]
    simp [htr]
  · intro p total_len st en msg events expired rest htx htr
    simp only [writeLoop]
    rw [if_neg htx]
    simp [htr]

/-- Witness for C7: `EAGAIN` (11) is zero progress and the loop continues;
`EIO` (5) raises the wrapped write-failed error. -/
theorem write_oserror_handling_witness :
    writeLoop portA 2 ⟨[8, 9], 2, 0, 0, 0, 0⟩
        [⟨.err 11 "resource temporarily unavailable", [], false⟩] =
      writeLoop portA 2 ⟨[8, 9], 2, 0, 1, 0, 0⟩ [] ∧
      writeLoop portA 2 ⟨[8, 9], 2, 0, 0, 0, 0⟩ [⟨.err 5 "input output error", [], false⟩] =
        .err (.writeFailed "write failed: input output error") 0 := by
  constructor
  · exact write_oserror_handling.1 portA 2 ⟨[8, 9], 2, 0, 0, 0, 0⟩ 11
      "resource temporarily unavailable" [] [] (by decide) (by decide)
  · exact write_oserror_handling.2 portA 2 ⟨[8, 9], 2, 0, 0, 0, 0⟩ 5 "input output error"
      [] false [] (by decide) (by decide)

/-- Every completed write loop returns exactly the number of bytes the
device accepted during the call, given the loop invariant
`written + len d = total_len` (and, in non-blocking mode, that nothing had
been written yet — non-blocking returns are only reached on the first
successful attempt). -/
theorem writeLoop_ret_eq_written (p : Serial) (total_len : Nat) :
    ∀ (env : List WriteEnvStep) (st : WState) (s : WriteSuccess),
      st.written + st.d.length = total_len →
      (p.write_timeout_non_blocking = true → st.written = 0) →
      writeLoop p total_len st env = .ok s →
      s.ret = s.written := by
  intro env
  induction env with
  | nil =>
    intro st s hsum hnb h
    simp only [writeLoop] at h
    split at h
    · obtain rfl : (⟨total_len - st.d.length, .done, st.pipe, st.attempts, st.polls,
          st.written⟩ : WriteSuccess) = s := by injection h
      dsimp only
      omega
    · cases h
  | cons step rest ih =>
    intro st s hsum hnb h
    simp only [writeLoop] at h
    split at h
    · obtain rfl : (⟨total_len - st.d.length, .done, st.pipe, st.attempts, st.polls,
          st.written⟩ : WriteSuccess) = s := by injection h
      dsimp only
      omega
    · rename_i h0
      split at h
      · rename_i en msg hos
        split at h
        · split at h
          · cases h
          · exact ih ⟨st.d, st.tx_remaining, st.pipe, st.attempts + 1, st.polls,
              st.written⟩ s hsum hnb h
        · cases h
      · rename_i rawN hos
        have hmin := Nat.min_le_right rawN st.d.length
        split at h
        · rename_i hb
          obtain rfl : (⟨min rawN st.d.length, .nonBlocking, st.pipe, st.attempts + 1,
              st.polls, st.written + min rawN st.d.length⟩ : WriteSuccess) = s := by
            injection h
          have hw0 : st.written = 0 := hnb (by simpa using hb)
          dsimp only
          omega
        · rename_i hb
          split at h
          · rename_i htx0
            obtain rfl : (⟨total_len - (st.d.drop (min rawN st.d.length)).length, .done,
                st.pipe, st.attempts + 1, st.polls,
                st.written + min rawN st.d.length⟩ : WriteSuccess) = s := by
              injection h
            dsimp only
            rw [List.length_drop]
            omega
          · rename_i htx0
            split at h
            · cases h
            · rename_i result pipe' hpe
              split at h
              · cases h
              · split at h
                · rename_i hres
                  obtain rfl : (⟨total_len - (st.d.drop (min rawN st.d.length)).length,
                      .aborted, pipe', st.attempts + 1, st.polls + 1,
                      st.written + min rawN st.d.length⟩ : WriteSuccess) = s := by
                    injection h
                  dsimp only
                  rw [List.length_drop]
                  omega
                · split at h
                  · cases h
                  · refine ih _ s ?_ ?_ h
                    · dsimp only
                      rw [List.length_drop]
                      omega
                    · intro hbb
                      exact absurd (by simpa using hbb) (by simpa using hb)

/-- C9: a completed `write` returns the total number of bytes actually
written (the return value always equals the ghost count of bytes the device
accepted); in particular, when the device accepts all of `data` in the
first OS-level write attempt, `write` returns `len(data)` with no readiness
wait performed (`polls = 0`) and the abort pipe untouched. -/
theorem write_returns_total_written :
    (∀ (p : Serial) (data : List Nat) (pipe : Nat) (env : List WriteEnvStep)
        (s : WriteSuccess),
        Serial.write p data pipe env = .ok s → s.ret = s.written) ∧
    (∀ (p : Serial) (data : List Nat) (pipe rawN : Nat) (step : WriteEnvStep)
        (rest : List WriteEnvStep),
        p.is_open = true →
        data ≠ [] →
        data.length ≤ rawN →
        step.osWrite = .ok rawN →
        Serial.write p data pipe (step :: rest) =
          .ok ⟨data.length, if p.write_timeout_non_blocking then .nonBlocking else .done,
            pipe, 1, 0, data.length⟩) := by
  constructor
  · intro p data pipe env s h
    unfold Serial.write at h
    split at h
    · cases h
    · exact writeLoop_ret_eq_written p data.length env ⟨data, data.length, pipe, 0, 0, 0⟩ s
        (by simp) (by intro; rfl) h
  · intro p data pipe rawN step rest hop hne hlen hos
    have htx0 : data.length ≠ 0 := by
      have := List.length_pos.mpr hne
      omega
    have hn : min rawN data.length = data.length := Nat.min_eq_right hlen
    unfold Serial.write
    rw [if_neg (by simp [hop])]
    simp only [writeLoop, hos]
    rw [if_neg htx0]
    rw [hn, List.drop_length]
    by_cases hb : p.write_timeout_non_blocking = true
    · simp [hb]
    · have hb' : p.write_timeout_non_blocking = false := by
        cases hhh : p.write_timeout_non_blocking
        · rfl
        · exact absurd hhh hb
      simp [hb']

/-- Witness for C9: `write` of three bytes, all accepted synchronously,
returns 3 with zero polls. -/
theorem write_returns_total_written_witness :
    Serial.write portA [65, 66, 67] 0 [⟨.ok 3, [], false⟩] = .ok ⟨3, .done, 0, 1, 0, 3⟩ := by
  have h := write_returns_total_written.2 portA [65, 66, 67] 0 3 ⟨.ok 3, [], false⟩ []
    rfl (by decide) (by decide) rfl
  simpa [portA] using h

end PollSerial
